import Mathlib

/-!
Verification of `aiotools.taskscope.TaskScope` (file `src/aiotools/taskscope.py`).

The Python class is shallowly embedded as pure Lean functions over an explicit
scope state.  Cooperative-scheduler behaviour (children completing during the
drain loop, the completion-wait future being cancelled) is modelled by an
explicit event trace consumed by the drain loop, so that every interleaving the
single-threaded event loop can produce corresponds to some trace.

Exceptions are modelled by a small inductive type: the distinctions the code
makes are exactly `CancelledError` (a type test), `SystemExit` /
`KeyboardInterrupt` (the `_is_base_error` test) and "everything else"
(ordinary errors, tagged by a code).
-/

/-- Exceptions, at the granularity `taskscope.py` distinguishes them. -/
inductive Exc where
  | cancelledError
  | systemExit
  | keyboardInterrupt
  | ordinary (code : Nat)
deriving DecidableEq, Repr

/-- The error-delegation configuration (`delegate_errors` in the constructor):
default process-wide handler, silently ignore, or a caller-supplied callback. -/
inductive Delegate where
  | defaultHandler
  | suppress
  | callback
deriving DecidableEq, Repr

/-- A child task as the scope observes it: an identity, whether it has reached a
terminal state, whether that terminal state was cancellation, the exception it
ended with (when not cancelled), and how many administrative `cancel()` requests
have been issued to it.  `asyncio.Task.cancel` increments a per-task request
counter, which we model with `cancelCount`. -/
structure ChildTask where
  tid : Nat
  done : Bool := false
  cancelled : Bool := false
  exc : Option Exc := none
  cancelCount : Nat := 0
deriving DecidableEq, Repr

/-- The parent task: whether it has completed, and its outstanding-cancellation
counter (`asyncio.Task._num_cancels_requested`, driven by `cancel`/`uncancel`). -/
structure ParentTask where
  done : Bool := false
  cancelCount : Nat := 0
deriving DecidableEq, Repr

/-- `Task.cancel()` on the parent: increment the outstanding-cancellation
counter. -/
def ParentTask.cancel (p : ParentTask) : ParentTask :=
  { p with cancelCount := p.cancelCount + 1 }

/-- `Task.uncancel()`: decrement the outstanding-cancellation counter if it is
positive, and return the new value.  `Nat` truncated subtraction matches the
CPython guard `if self._num_cancels_requested > 0`. -/
def ParentTask.uncancel (p : ParentTask) : ParentTask × Nat :=
  ({ p with cancelCount := p.cancelCount - 1 }, p.cancelCount - 1)

/-- `Task.cancel()` on a child: increment its cancel-request counter. -/
def ChildTask.cancel (t : ChildTask) : ChildTask :=
  { t with cancelCount := t.cancelCount + 1 }

/-- The state of a `TaskScope` object: the status flags and taskscope-specific
slots initialised in `__init__`, the live-child set `_tasks`, the pending
completion future `_on_completed_fut` (`none` = no future, `some false` =
pending, `some true` = resolved) and the parent task captured in `__aenter__`. -/
structure TaskScope where
  entered : Bool := false
  exiting : Bool := false
  aborting : Bool := false
  parent_cancel_requested : Bool := false
  base_error : Option Exc := none
  has_errors : Bool := false
  tasks : List ChildTask := []
  on_completed_fut : Option Bool := none
  parent_task : Option ParentTask := none
  delegate_errors : Delegate := Delegate.defaultHandler
deriving DecidableEq, Repr

/-- `TaskScope._is_base_error`: `isinstance(exc, (SystemExit, KeyboardInterrupt))`. -/
def TaskScope.is_base_error (e : Exc) : Bool :=
  match e with
  | Exc.systemExit => true
  | Exc.keyboardInterrupt => true
  | _ => false

/-- `TaskScope.abort`: set the aborting flag and request cancellation of every
live child that is not already finished (`for t in self._tasks: if not
t.done(): t.cancel()`). -/
def TaskScope.abort (s : TaskScope) : TaskScope :=
  { s with
    aborting := true
    tasks := s.tasks.map (fun t => if t.done then t else t.cancel) }

/-- Errors raised by `__aenter__` / `create_task` (`RuntimeError` in Python,
distinguished here by their message). -/
inductive RTError where
  | alreadyEntered
  | noParentTask
  | notEntered
  | finished
deriving DecidableEq, Repr

/-- `TaskScope.__aenter__`: fail if already entered, else mark entered, capture
the current task as parent, failing when there is none.  `cur` is the ambient
`tasks.current_task(loop)`. -/
def TaskScope.aenter (s : TaskScope) (cur : Option ParentTask) :
    Except RTError TaskScope :=
  if s.entered then Except.error RTError.alreadyEntered
  else
    let s := { s with entered := true }
    match cur with
    | none => Except.error RTError.noParentTask
    | some p => Except.ok { s with parent_task := some p }

/-- Modelled from the spec: `TaskContext._create_task` (the Task Registry layer,
whose source file is not in the repository snapshot) "registers the new task in
the live set and attaches a completion observer; returns a handle identical to
what the underlying runtime returns".  We register a fresh live child under the
given id and return the id as the handle. -/
def TaskScope.register_task (s : TaskScope) (tid : Nat) : TaskScope × Nat :=
  ({ s with tasks := s.tasks ++ [{ tid := tid }] }, tid)

/-- `TaskScope.create_task`: raise if the scope has not been entered; raise if
it is exiting with no live tasks; otherwise delegate to `_create_task`. -/
def TaskScope.create_task (s : TaskScope) (tid : Nat) :
    Except RTError (TaskScope × Nat) :=
  if !s.entered then Except.error RTError.notEntered
  else if s.exiting && s.tasks.isEmpty then Except.error RTError.finished
  else Except.ok (s.register_task tid)

/-- The result of running the completion observer `_on_task_done`: the updated
scope, whether `_handle_task_exception` (the Error Delegate hook, advisory
reporting only) was invoked, and whether the errored-orphan condition (parent
already done) was reported via `loop.call_exception_handler`. -/
structure ObsResult where
  scope : TaskScope
  delegated : Bool := false
  orphan_report : Bool := false
deriving DecidableEq, Repr

/-- The live-set maintenance step of `_on_task_done`: `self._tasks.discard(task)`
followed by resolving a pending `_on_completed_fut` when the live set is now
empty. -/
def TaskScope.discard_task (s : TaskScope) (task : ChildTask) : TaskScope :=
  let ts := s.tasks.filter (fun t => t.tid ≠ task.tid)
  { s with
    tasks := ts
    on_completed_fut :=
      if s.on_completed_fut = some false && ts.isEmpty
      then some true else s.on_completed_fut }

/-- The error-recording step of `_on_task_done`: set `_has_errors` and, when
the exception is base-typed and the slot is empty, record the first base
error. -/
def TaskScope.record_task_error (s : TaskScope) (exc : Exc) : TaskScope :=
  let s := { s with has_errors := true }
  if TaskScope.is_base_error exc && s.base_error.isNone
  then { s with base_error := some exc } else s

/-- The escalation step of `_on_task_done` for a base-typed child error:
trigger group abort, mark the parent cancellation as self-requested and cancel
the parent task. -/
def TaskScope.escalate (s : TaskScope) (parent : ParentTask) : TaskScope :=
  { s.abort with
    parent_cancel_requested := true
    parent_task := some parent.cancel }

/-- `TaskScope._on_task_done`, the completion observer attached to each child:
remove the child from the live set (resolving a pending completion future when
the set empties), ignore cancelled or successful children, and for an errored
child record the error, report it through the Error Delegate, and escalate when
it is base-typed and the parent still runs.  The two `assert` statements of the
source (loop and parent task are set) are modelled by an early no-op return on
the unreachable `none` branch.  `_handle_task_exception` lives in the absent
Task Registry file; modelled from the spec as advisory reporting that does not
change the scope state, recorded in the `delegated` flag. -/
def TaskScope.on_task_done (s : TaskScope) (task : ChildTask) : ObsResult :=
  match s.parent_task with
  | none => { scope := s }
  | some parent =>
    let s := s.discard_task task
    if task.cancelled then { scope := s }
    else
      match task.exc with
      | none => { scope := s }
      | some exc =>
        let s := s.record_task_error exc
        if parent.done then
          { scope := s, delegated := true, orphan_report := true }
        else if TaskScope.is_base_error exc then
          { scope := s.escalate parent, delegated := true }
        else
          { scope := s, delegated := true }

/-- Mark the live child `tid` as having reached the given terminal outcome and
fire its completion observer — the runtime behaviour behind one done-callback
delivery. -/
def TaskScope.complete_task (s : TaskScope) (tid : Nat) (cancelled : Bool)
    (exc : Option Exc) : TaskScope :=
  match s.tasks.find? (fun t => t.tid = tid) with
  | none => s
  | some t =>
    let t' := { t with done := true, cancelled := cancelled, exc := exc }
    let s' := { s with
                tasks := s.tasks.map (fun (u : ChildTask) =>
                  if u.tid = tid then t' else u) }
    (s'.on_task_done t').scope

/-- The first recording step of `__aexit__`: a base-typed error raised by the
block itself is recorded into the empty base-error slot. -/
def TaskScope.record_block_base (s : TaskScope) (blockExc : Option Exc) :
    TaskScope :=
  match blockExc with
  | some e =>
    if TaskScope.is_base_error e && s.base_error.isNone
    then { s with base_error := some e } else s
  | none => s

/-- The `uncancel` step of `__aexit__`: when the parent-cancel-requested flag
is set, call `uncancel()` on the parent exactly once and clear the tentative
cancellation when the counter reaches zero.  The `assert` that the parent task
is set is modelled by a no-op on the unreachable `none` branch. -/
def TaskScope.uncancel_phase (s : TaskScope) (pce : Option Exc) :
    TaskScope × Option Exc :=
  if s.parent_cancel_requested then
    match s.parent_task with
    | some p =>
      let u := ParentTask.uncancel p
      let s' := { s with parent_task := some u.1 }
      if u.2 = 0 then (s', none) else (s', pce)
    | none => (s, pce)
  else (s, pce)

/-- The abort step of `__aexit__` before draining: when the block exited
abnormally (`et is not None`) and abort is not already in progress, trigger
it. -/
def TaskScope.abort_step (s : TaskScope) (blockExc : Option Exc) : TaskScope :=
  if blockExc.isSome && !s.aborting then s.abort else s

/-- First phase of `TaskScope.__aexit__` (before the drain loop), following the
source order: mark exiting, record a base-typed block error into the empty
base-error slot, compute the tentative cancellation to re-raise, run the
mandatory `uncancel`, and trigger abort on abnormal block exit.  `blockExc` is
the block's own outcome (`none` = normal exit).  Returns the updated scope and
`propagate_cancellation_error`. -/
def TaskScope.aexitPre (s : TaskScope) (blockExc : Option Exc) :
    TaskScope × Option Exc :=
  let s1 := TaskScope.record_block_base { s with exiting := true } blockExc
  let pce : Option Exc :=
    if blockExc = some Exc.cancelledError then blockExc else none
  let sp := s1.uncancel_phase pce
  (sp.1.abort_step blockExc, sp.2)

/-- One event observed while `__aexit__` awaits inside the drain loop: a child
reaches a terminal outcome (its observer fires), the pending await on
`_on_completed_fut` is cancelled, or code running inside a still-live child
spawns a further task into the scope. -/
inductive DrainEvent where
  | taskCompletes (tid : Nat) (cancelled : Bool) (exc : Option Exc)
  | awaitCancelled
  | spawn (tid : Nat)
deriving DecidableEq, Repr

/-- Effect of one drain-loop event on the scope and on
`propagate_cancellation_error`.  A cancelled await sets the tentative
cancellation and triggers abort only when abort was not already in progress,
exactly as the `except CancelledError` arm of the source; either way the
consumed future is dropped (`self._on_completed_fut = None`). -/
def TaskScope.drainStep (s : TaskScope) (pce : Option Exc) :
    DrainEvent → TaskScope × Option Exc
  | DrainEvent.taskCompletes tid c e =>
    let s' := s.complete_task tid c e
    let s' := if s'.on_completed_fut = some true
              then { s' with on_completed_fut := none } else s'
    (s', pce)
  | DrainEvent.awaitCancelled =>
    if s.aborting then ({ s with on_completed_fut := none }, pce)
    else ({ s.abort with on_completed_fut := none }, some Exc.cancelledError)
  | DrainEvent.spawn tid =>
    match s.create_task tid with
    | Except.ok st => (st.1, pce)
    | Except.error _ => (s, pce)

/-- The drain loop of `__aexit__`: while the live set is non-empty, create the
completion future if absent and await it, processing the events the scheduler
delivers.  Returns `none` when the event trace is exhausted with children
still live (the loop has not yet returned — `__aexit__` keeps waiting). -/
def TaskScope.drainLoop : List DrainEvent → TaskScope → Option Exc →
    Option (TaskScope × Option Exc)
  | [], s, pce => if s.tasks.isEmpty then some (s, pce) else none
  | ev :: rest, s, pce =>
    if s.tasks.isEmpty then some (s, pce)
    else
      let s := if s.on_completed_fut = none
               then { s with on_completed_fut := some false } else s
      let p := s.drainStep pce ev
      TaskScope.drainLoop rest p.1 p.2

/-- The terminal outcome of `__aexit__`: raise the recorded base error, raise
the propagated cancellation, or return `None` (so the block's own exception, if
any, propagates unchanged). -/
inductive ExitResult where
  | raiseBase (e : Exc)
  | raiseCancel (e : Exc)
  | passThrough
deriving DecidableEq, Repr

/-- Final phase of `TaskScope.__aexit__` (after the live set is empty): raise
the base error if one is recorded; else re-raise the propagated cancellation
unless other errors have priority; else mark `has_errors` when the block itself
failed with a non-cancellation error and return `None`. -/
def TaskScope.aexitPost (s : TaskScope) (pce : Option Exc)
    (blockExc : Option Exc) : TaskScope × ExitResult :=
  match s.base_error with
  | some e => (s, ExitResult.raiseBase e)
  | none =>
    match pce with
    | some c =>
      if !s.has_errors then (s, ExitResult.raiseCancel c)
      else
        match blockExc with
        | some e =>
          if e ≠ Exc.cancelledError
          then ({ s with has_errors := true }, ExitResult.passThrough)
          else (s, ExitResult.passThrough)
        | none => (s, ExitResult.passThrough)
    | none =>
      match blockExc with
      | some e =>
        if e ≠ Exc.cancelledError
        then ({ s with has_errors := true }, ExitResult.passThrough)
        else (s, ExitResult.passThrough)
      | none => (s, ExitResult.passThrough)

/-- `TaskScope.__aexit__` in full: the pre-drain phase, the drain loop driven
by the event trace, and the final reconciliation.  `none` when the children
have not all finished within the trace. -/
def TaskScope.aexit (s : TaskScope) (blockExc : Option Exc)
    (events : List DrainEvent) : Option (TaskScope × ExitResult) :=
  let p := s.aexitPre blockExc
  match TaskScope.drainLoop events p.1 p.2 with
  | none => none
  | some q => some (TaskScope.aexitPost q.1 q.2 blockExc)

/-! ### Helper observations and example states -/

/-- The part of a child task the scope state machine branches on: identity,
terminal status, outcome, and whether administrative cancellation has been
requested at all (the Boolean view of the request counter). -/
def ChildTask.obs (t : ChildTask) : Nat × Bool × Bool × Option Exc × Bool :=
  (t.tid, t.done, t.cancelled, t.exc, decide (0 < t.cancelCount))

/-- Example scope used as a concrete input: an entered scope with two live
children and a fresh parent task. -/
def exScope : TaskScope :=
  { entered := true
    parent_task := some {}
    tasks := [{ tid := 1 }, { tid := 2 }] }

/-- Example terminal child: child 1 finished with an ordinary error. -/
def exOrdinaryFail : ChildTask :=
  { tid := 1, done := true, exc := some (Exc.ordinary 0) }

/-! ### Projection lemmas for the `__aexit__` phases -/

theorem record_block_base_parent_task (s : TaskScope) (b : Option Exc) :
    (s.record_block_base b).parent_task = s.parent_task := by
  unfold TaskScope.record_block_base
  repeat' split
  all_goals rfl

theorem record_block_base_pcr (s : TaskScope) (b : Option Exc) :
    (s.record_block_base b).parent_cancel_requested
      = s.parent_cancel_requested := by
  unfold TaskScope.record_block_base
  repeat' split
  all_goals rfl

theorem record_block_base_aborting (s : TaskScope) (b : Option Exc) :
    (s.record_block_base b).aborting = s.aborting := by
  unfold TaskScope.record_block_base
  repeat' split
  all_goals rfl

theorem record_block_base_tasks (s : TaskScope) (b : Option Exc) :
    (s.record_block_base b).tasks = s.tasks := by
  unfold TaskScope.record_block_base
  repeat' split
  all_goals rfl

theorem record_block_base_has_errors (s : TaskScope) (b : Option Exc) :
    (s.record_block_base b).has_errors = s.has_errors := by
  unfold TaskScope.record_block_base
  repeat' split
  all_goals rfl

theorem record_block_base_base_some (s : TaskScope) (b : Option Exc) (e : Exc)
    (h : s.base_error = some e) : (s.record_block_base b).base_error = some e := by
  unfold TaskScope.record_block_base
  rcases b with _ | e'
  · exact h
  · simp [h]

theorem uncancel_phase_eq (s : TaskScope) (p : ParentTask) (pce : Option Exc)
    (hreq : s.parent_cancel_requested = true) (hp : s.parent_task = some p) :
    s.uncancel_phase pce
      = ({ s with parent_task := some { p with cancelCount := p.cancelCount - 1 } },
         if p.cancelCount - 1 = 0 then none else pce) := by
  simp only [TaskScope.uncancel_phase, ParentTask.uncancel, hreq, hp, if_true]
  split <;> simp_all

theorem uncancel_phase_aborting (s : TaskScope) (pce : Option Exc) :
    (s.uncancel_phase pce).1.aborting = s.aborting := by
  unfold TaskScope.uncancel_phase
  repeat' split
  all_goals simp [apply_ite]

theorem uncancel_phase_tasks (s : TaskScope) (pce : Option Exc) :
    (s.uncancel_phase pce).1.tasks = s.tasks := by
  unfold TaskScope.uncancel_phase
  repeat' split
  all_goals simp [apply_ite]

theorem uncancel_phase_base_error (s : TaskScope) (pce : Option Exc) :
    (s.uncancel_phase pce).1.base_error = s.base_error := by
  unfold TaskScope.uncancel_phase
  repeat' split
  all_goals simp [apply_ite]

theorem uncancel_phase_has_errors (s : TaskScope) (pce : Option Exc) :
    (s.uncancel_phase pce).1.has_errors = s.has_errors := by
  unfold TaskScope.uncancel_phase
  repeat' split
  all_goals simp [apply_ite]

theorem abort_step_parent_task (s : TaskScope) (b : Option Exc) :
    (s.abort_step b).parent_task = s.parent_task := by
  unfold TaskScope.abort_step TaskScope.abort
  split <;> rfl

theorem abort_step_base_error (s : TaskScope) (b : Option Exc) :
    (s.abort_step b).base_error = s.base_error := by
  unfold TaskScope.abort_step TaskScope.abort
  split <;> rfl

theorem abort_step_has_errors (s : TaskScope) (b : Option Exc) :
    (s.abort_step b).has_errors = s.has_errors := by
  unfold TaskScope.abort_step TaskScope.abort
  split <;> rfl

theorem abort_step_none (s : TaskScope) : s.abort_step none = s := rfl

theorem abort_step_some_fresh (s : TaskScope) (e : Exc)
    (h : s.aborting = false) : s.abort_step (some e) = s.abort := by
  unfold TaskScope.abort_step
  simp [h]

theorem abort_step_some_already (s : TaskScope) (e : Exc)
    (h : s.aborting = true) : s.abort_step (some e) = s := by
  unfold TaskScope.abort_step
  simp [h]

/-! ### Claim theorems -/

/-- C2: whenever the parent-cancel-requested flag is set at exit, `__aexit__`
calls `uncancel` on the parent exactly once (the outstanding-cancellation
counter is decremented by one); if the resulting counter is zero the tentative
cancellation-to-re-raise is cleared, and if it is still positive the tentative
value (the block's own cancellation, if any) is kept. -/
theorem taskscope_uncancel_exactly_once (s : TaskScope) (p : ParentTask)
    (blockExc : Option Exc)
    (hreq : s.parent_cancel_requested = true)
    (hp : s.parent_task = some p) :
    (s.aexitPre blockExc).1.parent_task
        = some { p with cancelCount := p.cancelCount - 1 }
    ∧ (p.cancelCount - 1 = 0 → (s.aexitPre blockExc).2 = none)
    ∧ (p.cancelCount - 1 ≠ 0 →
        (s.aexitPre blockExc).2
          = if blockExc = some Exc.cancelledError then blockExc else none) := by
  have h1 : (TaskScope.record_block_base { s with exiting := true }
      blockExc).parent_cancel_requested = true := by
    rw [record_block_base_pcr]; exact hreq
  have h2 : (TaskScope.record_block_base { s with exiting := true }
      blockExc).parent_task = some p := by
    rw [record_block_base_parent_task]; exact hp
  simp only [TaskScope.aexitPre]
  rw [uncancel_phase_eq _ p _ h1 h2]
  refine ⟨?_, fun hz => ?_, fun hz => ?_⟩
  · simp [abort_step_parent_task]
  · simp [hz]
  · simp [hz]

/-- C2 witness: a scope that self-requested parent cancellation once, exiting
with a cancelled block; the counter drops to zero and the cancellation is not
propagated. -/
theorem taskscope_uncancel_exactly_once_w :
    ({ entered := true, parent_cancel_requested := true,
       parent_task := some { cancelCount := 1 } : TaskScope }.aexitPre
        (some Exc.cancelledError)).1.parent_task = some { cancelCount := 0 }
    ∧ ({ entered := true, parent_cancel_requested := true,
         parent_task := some { cancelCount := 1 } : TaskScope }.aexitPre
          (some Exc.cancelledError)).2 = none := by
  have h := taskscope_uncancel_exactly_once
    { entered := true, parent_cancel_requested := true,
      parent_task := some { cancelCount := 1 } }
    { cancelCount := 1 } (some Exc.cancelledError) rfl rfl
  exact ⟨h.1, h.2.1 rfl⟩

/-- C3: once the live set is drained, a recorded base error is raised, taking
precedence over any pending cancellation-to-re-raise and over the block's own
outcome. -/
theorem taskscope_base_error_priority (s : TaskScope) (e : Exc)
    (pce blockExc : Option Exc) (hb : s.base_error = some e) :
    (s.aexitPost pce blockExc).2 = ExitResult.raiseBase e := by
  simp [TaskScope.aexitPost, hb]

/-- C3 witness: a scope holding `SystemExit` as base error, with a pending
cancellation and a failing block, still raises the base error. -/
theorem taskscope_base_error_priority_w :
    ({ base_error := some Exc.systemExit : TaskScope }.aexitPost
        (some Exc.cancelledError) (some (Exc.ordinary 7))).2
      = ExitResult.raiseBase Exc.systemExit :=
  taskscope_base_error_priority { base_error := some Exc.systemExit }
    Exc.systemExit (some Exc.cancelledError) (some (Exc.ordinary 7)) rfl

/-- C4: with no base error recorded, exit re-raises a cancellation exactly when
a tentative cancellation-to-re-raise exists and the any-task-errored flag is
false. -/
theorem taskscope_cancel_reraise_iff (s : TaskScope) (pce blockExc : Option Exc)
    (c : Exc) (hb : s.base_error = none) :
    (s.aexitPost pce blockExc).2 = ExitResult.raiseCancel c
      ↔ (pce = some c ∧ s.has_errors = false) := by
  simp only [TaskScope.aexitPost, hb]
  rcases pce with _ | c' <;> rcases blockExc with _ | e <;>
    by_cases hhe : s.has_errors <;> simp_all [apply_ite]

/-- C4 witness: with no base error, a pending cancellation and a clean error
flag, exit re-raises the cancellation. -/
theorem taskscope_cancel_reraise_iff_w :
    (({} : TaskScope).aexitPost (some Exc.cancelledError) none).2
        = ExitResult.raiseCancel Exc.cancelledError
    ∧ ({} : TaskScope).base_error = none :=
  ⟨(taskscope_cancel_reraise_iff {} (some Exc.cancelledError) none
      Exc.cancelledError rfl).mpr ⟨rfl, rfl⟩, rfl⟩

/-- C6: when the block exits abnormally, `__aexit__` triggers abort before
draining — if abort was not already in progress every still-live child gets a
cancellation request, and if it was, the child set is untouched; when the block
exits normally, this step does not trigger abort and leaves the children
untouched. -/
theorem taskscope_abnormal_exit_aborts (s : TaskScope) (e : Exc) :
    ((s.aexitPre (some e)).1.aborting = true
      ∧ (s.aborting = false →
          (s.aexitPre (some e)).1.tasks
            = s.tasks.map (fun t => if t.done then t else t.cancel))
      ∧ (s.aborting = true → (s.aexitPre (some e)).1.tasks = s.tasks))
    ∧ ((s.aexitPre none).1.aborting = s.aborting
        ∧ (s.aexitPre none).1.tasks = s.tasks) := by
  have hA : ∀ (b : Option Exc) (pce : Option Exc),
      ((TaskScope.record_block_base { s with exiting := true }
        b).uncancel_phase pce).1.aborting = s.aborting := by
    intro b pce
    rw [uncancel_phase_aborting, record_block_base_aborting]
  have hT : ∀ (b : Option Exc) (pce : Option Exc),
      ((TaskScope.record_block_base { s with exiting := true }
        b).uncancel_phase pce).1.tasks = s.tasks := by
    intro b pce
    rw [uncancel_phase_tasks, record_block_base_tasks]
  simp only [TaskScope.aexitPre]
  refine ⟨⟨?_, fun hab => ?_, fun hab => ?_⟩, ?_, ?_⟩
  · by_cases hab : s.aborting
    · rw [abort_step_some_already _ e ((hA _ _).trans hab)]
      exact (hA _ _).trans hab
    · rw [abort_step_some_fresh _ e ((hA _ _).trans (Bool.not_eq_true _ ▸ hab))]
      rfl
  · rw [abort_step_some_fresh _ e ((hA _ _).trans hab)]
    simp [TaskScope.abort, hT]
  · rw [abort_step_some_already _ e ((hA _ _).trans hab)]
    exact hT _ _
  · rw [abort_step_none]
    exact hA _ _
  · rw [abort_step_none]
    exact hT _ _

/-- C6 witness: a block failing with an ordinary error in a non-aborting scope
with one live child triggers abort and cancels the child; a normal block exit
leaves the same scope untouched. -/
theorem taskscope_abnormal_exit_aborts_w :
    (exScope.aexitPre (some (Exc.ordinary 3))).1.aborting = true
    ∧ (exScope.aexitPre (some (Exc.ordinary 3))).1.tasks
        = exScope.tasks.map (fun t => if t.done then t else t.cancel)
    ∧ (exScope.aexitPre none).1.aborting = exScope.aborting
    ∧ (exScope.aexitPre none).1.tasks = exScope.tasks := by
  have h := taskscope_abnormal_exit_aborts exScope (Exc.ordinary 3)
  exact ⟨h.1.1, h.1.2.1 rfl, h.2.1, h.2.2⟩

/-- C8: `abort` sets the aborting flag, requests cancellation of every live
not-yet-finished child, and is idempotent — a second call leaves every scope
attribute, the identity/outcome view of every child, and every already-finished
child exactly as after the first call (no cancellation is issued to finished
children). -/
theorem taskscope_abort_idempotent (s : TaskScope) (t u : ChildTask)
    (ht : t ∈ s.abort.tasks) (htd : t.done = true)
    (hu : u ∈ s.tasks) (hud : u.done = false) :
    s.abort.aborting = true
    ∧ u.cancel ∈ s.abort.tasks
    ∧ s.abort.abort.entered = s.abort.entered
    ∧ s.abort.abort.exiting = s.abort.exiting
    ∧ s.abort.abort.aborting = s.abort.aborting
    ∧ s.abort.abort.parent_cancel_requested = s.abort.parent_cancel_requested
    ∧ s.abort.abort.base_error = s.abort.base_error
    ∧ s.abort.abort.has_errors = s.abort.has_errors
    ∧ s.abort.abort.on_completed_fut = s.abort.on_completed_fut
    ∧ s.abort.abort.parent_task = s.abort.parent_task
    ∧ s.abort.abort.tasks.map ChildTask.obs
        = s.abort.tasks.map ChildTask.obs
    ∧ t ∈ s.abort.abort.tasks := by
  refine ⟨rfl, ?_, rfl, rfl, rfl, rfl, rfl, rfl, rfl, rfl, ?_, ?_⟩
  · have h := List.mem_map_of_mem
      (fun t : ChildTask => if t.done then t else t.cancel) hu
    simpa [TaskScope.abort, hud] using h
  · simp only [TaskScope.abort, List.map_map]
    refine List.map_congr_left ?_
    intro v _
    by_cases hvd : v.done <;>
      simp [Function.comp, ChildTask.obs, ChildTask.cancel, hvd]
  · have h := List.mem_map_of_mem
      (fun t : ChildTask => if t.done then t else t.cancel) ht
    simpa [TaskScope.abort, htd] using h

/-- Example scope with one finished and one live child, used to witness abort
idempotence. -/
def exScope2 : TaskScope :=
  { entered := true
    parent_task := some {}
    tasks := [{ tid := 1, done := true }, { tid := 2 }] }

/-- C8 witness: on a scope with a finished child 1 and a live child 2, abort
flags the scope, cancels child 2, and a second abort changes nothing observable
and leaves child 1 untouched. -/
theorem taskscope_abort_idempotent_w :
    ({ tid := 1, done := true } : ChildTask) ∈ exScope2.abort.tasks
    ∧ ({ tid := 2 } : ChildTask) ∈ exScope2.tasks
    ∧ exScope2.abort.aborting = true
    ∧ ChildTask.cancel { tid := 2 } ∈ exScope2.abort.tasks
    ∧ exScope2.abort.abort.tasks.map ChildTask.obs
        = exScope2.abort.tasks.map ChildTask.obs
    ∧ ({ tid := 1, done := true } : ChildTask) ∈ exScope2.abort.abort.tasks := by
  have h := taskscope_abort_idempotent exScope2
    { tid := 1, done := true } { tid := 2 } (by decide) rfl (by decide) rfl
  exact ⟨by decide, by decide, h.1, h.2.1, h.2.2.2.2.2.2.2.2.2.2.1,
         h.2.2.2.2.2.2.2.2.2.2.2⟩

/-! ### Drain-loop lemmas -/

theorem aexitPost_tasks (s : TaskScope) (pce blockExc : Option Exc) :
    (s.aexitPost pce blockExc).1.tasks = s.tasks := by
  unfold TaskScope.aexitPost
  repeat' split
  all_goals rfl

theorem drainLoop_tasks_empty :
    ∀ (events : List DrainEvent) (s : TaskScope) (pce : Option Exc)
      (s' : TaskScope) (pce' : Option Exc),
      TaskScope.drainLoop events s pce = some (s', pce') → s'.tasks = [] := by
  intro events
  induction events with
  | nil =>
    intro s pce s' pce' h
    unfold TaskScope.drainLoop at h
    split at h
    · cases h
      rename_i hie
      cases hts : s.tasks with
      | nil => rfl
      | cons a l => rw [hts] at hie; cases hie
    · cases h
  | cons ev rest ih =>
    intro s pce s' pce' h
    unfold TaskScope.drainLoop at h
    split at h
    · cases h
      rename_i hie
      cases hts : s.tasks with
      | nil => rfl
      | cons a l => rw [hts] at hie; cases hie
    · exact ih _ _ _ _ h

theorem drainLoop_cons (ev : DrainEvent) (rest : List DrainEvent)
    (s : TaskScope) (pce : Option Exc) (hne : s.tasks.isEmpty = false) :
    TaskScope.drainLoop (ev :: rest) s pce
      = (let s0 := if s.on_completed_fut = none
                   then { s with on_completed_fut := some false } else s
         let p := s0.drainStep pce ev
         TaskScope.drainLoop rest p.1 p.2) := by
  have h1 : TaskScope.drainLoop (ev :: rest) s pce
      = if s.tasks.isEmpty then some (s, pce)
        else
          let s0 := if s.on_completed_fut = none
                    then { s with on_completed_fut := some false } else s
          let p := s0.drainStep pce ev
          TaskScope.drainLoop rest p.1 p.2 := rfl
  rw [h1]
  simp [hne]

/-- C5: `__aexit__` hands control back only once every spawned child has
reached a terminal state — whenever it returns a result the live-child set is
empty, for any completion order the event trace encodes; and when the await on
the completion signal is itself cancelled while abort is not in progress, the
cancellation becomes the new tentative cancellation-to-re-raise, abort is
triggered, and the drain loop continues waiting instead of exiting. -/
theorem taskscope_exit_drains_all (s : TaskScope) (blockExc : Option Exc)
    (events rest : List DrainEvent) (pce : Option Exc)
    (s' : TaskScope) (r : ExitResult)
    (hsome : s.aexit blockExc events = some (s', r))
    (hne : s.tasks ≠ []) (hnab : s.aborting = false) :
    s'.tasks = []
    ∧ TaskScope.drainLoop (DrainEvent.awaitCancelled :: rest) s pce
        = TaskScope.drainLoop rest { s.abort with on_completed_fut := none }
            (some Exc.cancelledError) := by
  constructor
  · unfold TaskScope.aexit at hsome
    dsimp only at hsome
    split at hsome
    · cases hsome
    · rename_i q hq
      have hqe := drainLoop_tasks_empty events _ _ _ _ hq
      have hpair := Option.some.inj hsome
      have hs' : (TaskScope.aexitPost q.1 q.2 blockExc).1 = s' := by
        rw [hpair]
      rw [← hs', aexitPost_tasks]
      exact hqe
  · have hie : s.tasks.isEmpty = false := by
      cases hts : s.tasks with
      | nil => exact absurd hts hne
      | cons a l => rfl
    rw [drainLoop_cons _ _ _ _ hie]
    by_cases hf : s.on_completed_fut = none <;>
      simp [hf, TaskScope.drainStep, hnab, TaskScope.abort]

/-- C5 witness: a two-child scope whose children finish in trace order drains
to an empty live set, and a cancelled await in the same scope aborts, records
the cancellation, and keeps draining. -/
theorem taskscope_exit_drains_all_w :
    exScope.aexit none
        [DrainEvent.taskCompletes 1 true none,
         DrainEvent.taskCompletes 2 true none]
      = some ({ entered := true, exiting := true, parent_task := some {} },
              ExitResult.passThrough)
    ∧ exScope.tasks ≠ []
    ∧ exScope.aborting = false
    ∧ ({ entered := true, exiting := true,
         parent_task := some {} } : TaskScope).tasks = []
    ∧ TaskScope.drainLoop
        (DrainEvent.awaitCancelled
          :: [DrainEvent.taskCompletes 1 true none,
              DrainEvent.taskCompletes 2 true none]) exScope none
        = TaskScope.drainLoop
            [DrainEvent.taskCompletes 1 true none,
             DrainEvent.taskCompletes 2 true none]
            { exScope.abort with on_completed_fut := none }
            (some Exc.cancelledError) := by
  have h := taskscope_exit_drains_all exScope none
    [DrainEvent.taskCompletes 1 true none, DrainEvent.taskCompletes 2 true none]
    [DrainEvent.taskCompletes 1 true none, DrainEvent.taskCompletes 2 true none]
    none
    { entered := true, exiting := true, parent_task := some {} }
    ExitResult.passThrough (by decide) (by decide) rfl
  exact ⟨by decide, by decide, rfl, h.1, h.2⟩

/-! ### State-mutating operations for the invariant claims -/

/-- The operations that mutate a scope's state during its lifetime: a child's
completion observer firing, an `abort` call, the pre-drain phase of exit, a
drain-loop event, a `create_task` call (a no-op on failure), and the final
reconciliation phase of exit. -/
inductive Op where
  | childDone (tid : Nat) (cancelled : Bool) (exc : Option Exc)
  | abortCall
  | exitPre (blockExc : Option Exc)
  | drainEv (ev : DrainEvent)
  | spawnTask (tid : Nat)
  | exitPost (pce blockExc : Option Exc)
deriving DecidableEq, Repr

/-- Apply one operation's state effect. -/
def TaskScope.step (s : TaskScope) : Op → TaskScope
  | Op.childDone tid c e => s.complete_task tid c e
  | Op.abortCall => s.abort
  | Op.exitPre b => (s.aexitPre b).1
  | Op.drainEv ev => (s.drainStep none ev).1
  | Op.spawnTask tid =>
    match s.create_task tid with
    | Except.ok st => st.1
    | Except.error _ => s
  | Op.exitPost pce b => (s.aexitPost pce b).1

/-- Apply a sequence of operations. -/
def TaskScope.run (s : TaskScope) : List Op → TaskScope
  | [] => s
  | op :: rest => (s.step op).run rest

theorem on_task_done_base_some (s : TaskScope) (t : ChildTask) (e : Exc)
    (h : s.base_error = some e) :
    (s.on_task_done t).scope.base_error = some e := by
  unfold TaskScope.on_task_done
  repeat' split
  all_goals
    simp_all [TaskScope.discard_task, TaskScope.record_task_error,
      TaskScope.escalate, TaskScope.abort, apply_ite]

theorem on_task_done_has_errors (s : TaskScope) (t : ChildTask)
    (h : s.has_errors = true) :
    (s.on_task_done t).scope.has_errors = true := by
  unfold TaskScope.on_task_done
  repeat' split
  all_goals
    simp_all [TaskScope.discard_task, TaskScope.record_task_error,
      TaskScope.escalate, TaskScope.abort, apply_ite]

theorem complete_task_base_some (s : TaskScope) (tid : Nat) (c : Bool)
    (ex : Option Exc) (e : Exc) (h : s.base_error = some e) :
    (s.complete_task tid c ex).base_error = some e := by
  unfold TaskScope.complete_task
  split
  · exact h
  · exact on_task_done_base_some _ _ _ h

theorem complete_task_has_errors (s : TaskScope) (tid : Nat) (c : Bool)
    (ex : Option Exc) (h : s.has_errors = true) :
    (s.complete_task tid c ex).has_errors = true := by
  unfold TaskScope.complete_task
  split
  · exact h
  · exact on_task_done_has_errors _ _ h

theorem aexitPre_base_some (s : TaskScope) (b : Option Exc) (e : Exc)
    (h : s.base_error = some e) : (s.aexitPre b).1.base_error = some e := by
  simp only [TaskScope.aexitPre]
  rw [abort_step_base_error, uncancel_phase_base_error]
  exact record_block_base_base_some _ _ _ h

theorem aexitPre_has_errors (s : TaskScope) (b : Option Exc)
    (h : s.has_errors = true) : (s.aexitPre b).1.has_errors = true := by
  simp only [TaskScope.aexitPre]
  rw [abort_step_has_errors, uncancel_phase_has_errors,
    record_block_base_has_errors]
  exact h

theorem aexitPost_base_error (s : TaskScope) (pce b : Option Exc) :
    (s.aexitPost pce b).1.base_error = s.base_error := by
  unfold TaskScope.aexitPost
  repeat' split
  all_goals rfl

theorem aexitPost_has_errors (s : TaskScope) (pce b : Option Exc)
    (h : s.has_errors = true) : (s.aexitPost pce b).1.has_errors = true := by
  unfold TaskScope.aexitPost
  repeat' split
  all_goals simp_all

theorem create_task_base_some (s : TaskScope) (tid : Nat) (e : Exc)
    (h : s.base_error = some e) :
    (match s.create_task tid with
     | Except.ok st => st.1
     | Except.error _ => s).base_error = some e := by
  unfold TaskScope.create_task TaskScope.register_task
  cases he : s.entered <;> cases hx : s.exiting <;> cases hts : s.tasks <;>
    simp_all

theorem create_task_has_errors (s : TaskScope) (tid : Nat)
    (h : s.has_errors = true) :
    (match s.create_task tid with
     | Except.ok st => st.1
     | Except.error _ => s).has_errors = true := by
  unfold TaskScope.create_task TaskScope.register_task
  cases he : s.entered <;> cases hx : s.exiting <;> cases hts : s.tasks <;>
    simp_all

theorem spawn_pair_base (s : TaskScope) (tid : Nat) (pce : Option Exc) :
    (match s.create_task tid with
     | Except.ok st => (st.1, pce)
     | Except.error _ => (s, pce)).1.base_error = s.base_error := by
  unfold TaskScope.create_task TaskScope.register_task
  cases he : s.entered <;> cases hx : s.exiting <;> cases hts : s.tasks <;>
    simp_all

theorem spawn_pair_has_errors (s : TaskScope) (tid : Nat) (pce : Option Exc) :
    (match s.create_task tid with
     | Except.ok st => (st.1, pce)
     | Except.error _ => (s, pce)).1.has_errors = s.has_errors := by
  unfold TaskScope.create_task TaskScope.register_task
  cases he : s.entered <;> cases hx : s.exiting <;> cases hts : s.tasks <;>
    simp_all

theorem drainStep_base_some (s : TaskScope) (pce : Option Exc)
    (ev : DrainEvent) (e : Exc) (h : s.base_error = some e) :
    (s.drainStep pce ev).1.base_error = some e := by
  cases ev with
  | taskCompletes tid c ex =>
    have hc := complete_task_base_some s tid c ex e h
    unfold TaskScope.drainStep
    dsimp only
    split
    · exact hc
    · exact hc
  | awaitCancelled =>
    unfold TaskScope.drainStep
    dsimp only
    split
    · exact h
    · simpa [TaskScope.abort] using h
  | spawn tid =>
    unfold TaskScope.drainStep
    dsimp only
    exact (spawn_pair_base s tid pce).trans h

theorem drainStep_has_errors (s : TaskScope) (pce : Option Exc)
    (ev : DrainEvent) (h : s.has_errors = true) :
    (s.drainStep pce ev).1.has_errors = true := by
  cases ev with
  | taskCompletes tid c ex =>
    have hc := complete_task_has_errors s tid c ex h
    unfold TaskScope.drainStep
    dsimp only
    split
    · exact hc
    · exact hc
  | awaitCancelled =>
    unfold TaskScope.drainStep
    dsimp only
    split
    · exact h
    · simpa [TaskScope.abort] using h
  | spawn tid =>
    unfold TaskScope.drainStep
    dsimp only
    exact (spawn_pair_has_errors s tid pce).trans h

theorem step_base_some (s : TaskScope) (op : Op) (e : Exc)
    (h : s.base_error = some e) : (s.step op).base_error = some e := by
  cases op with
  | childDone tid c ex => exact complete_task_base_some s tid c ex e h
  | abortCall => simpa [TaskScope.abort] using h
  | exitPre b => exact aexitPre_base_some s b e h
  | drainEv ev => exact drainStep_base_some s none ev e h
  | spawnTask tid => exact create_task_base_some s tid e h
  | exitPost pce b => rw [TaskScope.step, aexitPost_base_error]; exact h

theorem step_has_errors (s : TaskScope) (op : Op)
    (h : s.has_errors = true) : (s.step op).has_errors = true := by
  cases op with
  | childDone tid c ex => exact complete_task_has_errors s tid c ex h
  | abortCall => simpa [TaskScope.abort] using h
  | exitPre b => exact aexitPre_has_errors s b h
  | drainEv ev => exact drainStep_has_errors s none ev h
  | spawnTask tid => exact create_task_has_errors s tid h
  | exitPost pce b => exact aexitPost_has_errors s pce b h

/-- C7: across every sequence of state-mutating operations, the base-error
slot is first-observed-wins — once it holds an error it is never overwritten —
and the any-task-errored flag, once true, is never reset. -/
theorem taskscope_error_flags_monotone (s : TaskScope) (ops : List Op)
    (e : Exc) :
    (s.base_error = some e → (s.run ops).base_error = some e)
    ∧ (s.has_errors = true → (s.run ops).has_errors = true) := by
  induction ops generalizing s with
  | nil => exact ⟨id, id⟩
  | cons op rest ih =>
    constructor
    · intro h
      exact (ih (s.step op)).1 (step_base_some s op e h)
    · intro h
      exact (ih (s.step op)).2 (step_has_errors s op h)

/-- Example scope that already carries a recorded base error and a raised
error flag. -/
def exScopeErr : TaskScope :=
  { exScope with
    base_error := some Exc.systemExit
    has_errors := true }

/-- Example operation sequence exercising every mutating operation. -/
def exOps : List Op :=
  [Op.childDone 1 false (some Exc.keyboardInterrupt), Op.abortCall,
   Op.spawnTask 3, Op.drainEv DrainEvent.awaitCancelled,
   Op.exitPre (some Exc.cancelledError),
   Op.childDone 2 true none,
   Op.exitPost (some Exc.cancelledError) (some Exc.cancelledError)]

/-- C7 witness: a scope already holding `SystemExit` in the base-error slot and
a raised error flag keeps both through a run of observer firings, aborts, a
competing base-errored child, exit phases and spawns. -/
theorem taskscope_error_flags_monotone_w :
    exScopeErr.base_error = some Exc.systemExit
    ∧ exScopeErr.has_errors = true
    ∧ (exScopeErr.run exOps).base_error = some Exc.systemExit
    ∧ (exScopeErr.run exOps).has_errors = true := by
  have h := taskscope_error_flags_monotone exScopeErr exOps Exc.systemExit
  exact ⟨rfl, rfl, h.1 rfl, h.2 rfl⟩

/-- C9: programmer misuse is reported immediately at the call site —
`create_task` before entry fails with the not-entered error, re-entering an
entered scope fails with the reuse error, `create_task` on an exiting scope
with no live children fails with the finished error, and `create_task` on an
exiting scope that still has live children succeeds and registers the task. -/
theorem taskscope_invalid_state_errors (s1 s2 s3 s4 : TaskScope) (tid : Nat)
    (cur : Option ParentTask)
    (h1 : s1.entered = false)
    (h2 : s2.entered = true)
    (h3e : s3.entered = true) (h3x : s3.exiting = true) (h3t : s3.tasks = [])
    (h4e : s4.entered = true) (h4x : s4.exiting = true)
    (h4t : s4.tasks ≠ []) :
    s1.create_task tid = Except.error RTError.notEntered
    ∧ s2.aenter cur = Except.error RTError.alreadyEntered
    ∧ s3.create_task tid = Except.error RTError.finished
    ∧ s4.create_task tid
        = Except.ok ({ s4 with tasks := s4.tasks ++ [{ tid := tid }] }, tid) := by
  have h4ie : s4.tasks.isEmpty = false := by
    cases hts : s4.tasks with
    | nil => exact absurd hts h4t
    | cons a l => rfl
  refine ⟨?_, ?_, ?_, ?_⟩
  · simp [TaskScope.create_task, h1]
  · simp [TaskScope.aenter, h2]
  · simp [TaskScope.create_task, h3e, h3x, h3t]
  · simp [TaskScope.create_task, TaskScope.register_task, h4e, h4x, h4ie]

/-- Example not-yet-entered scope. -/
def exFresh : TaskScope := {}

/-- Example exhausted scope: entered, exiting, no live children. -/
def exExhausted : TaskScope :=
  { entered := true, exiting := true, parent_task := some {} }

/-- Example draining scope: entered, exiting, one live child. -/
def exDraining : TaskScope :=
  { entered := true, exiting := true, parent_task := some {},
    tasks := [{ tid := 1 }] }

/-- C9 witness: the four call-site outcomes on concrete scopes. -/
theorem taskscope_invalid_state_errors_w :
    exFresh.create_task 9 = Except.error RTError.notEntered
    ∧ exScope.aenter (some {}) = Except.error RTError.alreadyEntered
    ∧ exExhausted.create_task 9 = Except.error RTError.finished
    ∧ exDraining.create_task 9
        = Except.ok
            ({ exDraining with tasks := exDraining.tasks ++ [{ tid := 9 }] }, 9) :=
  taskscope_invalid_state_errors exFresh exScope exExhausted exDraining 9
    (some {}) rfl rfl rfl rfl rfl rfl rfl (by decide)

theorem on_task_done_errored_eq (s : TaskScope) (p : ParentTask)
    (t : ChildTask) (e : Exc)
    (hp : s.parent_task = some p) (hpd : p.done = false)
    (ht : t.cancelled = false) (hexc : t.exc = some e) :
    s.on_task_done t
      = if TaskScope.is_base_error e then
          { scope := ((s.discard_task t).record_task_error e).escalate p,
            delegated := true }
        else
          { scope := (s.discard_task t).record_task_error e,
            delegated := true } := by
  simp only [TaskScope.on_task_done, hp, ht, hexc, hpd]
  split <;> simp_all

theorem record_task_error_aborting (s : TaskScope) (e : Exc) :
    (s.record_task_error e).aborting = s.aborting := by
  unfold TaskScope.record_task_error
  simp [apply_ite]

theorem record_task_error_pcr (s : TaskScope) (e : Exc) :
    (s.record_task_error e).parent_cancel_requested
      = s.parent_cancel_requested := by
  unfold TaskScope.record_task_error
  simp [apply_ite]

theorem record_task_error_parent_task (s : TaskScope) (e : Exc) :
    (s.record_task_error e).parent_task = s.parent_task := by
  unfold TaskScope.record_task_error
  simp [apply_ite]

theorem record_task_error_tasks (s : TaskScope) (e : Exc) :
    (s.record_task_error e).tasks = s.tasks := by
  unfold TaskScope.record_task_error
  simp [apply_ite]

theorem record_task_error_not_base (s : TaskScope) (e : Exc)
    (he : TaskScope.is_base_error e = false) :
    (s.record_task_error e).base_error = s.base_error := by
  unfold TaskScope.record_task_error
  simp [he]

/-- C10: an error is base-typed exactly when it is `SystemExit` or
`KeyboardInterrupt`; the completion observer changes the base-error slot only
for such an error (filling the empty slot with it); a child failing with an
ordinary error never escalates (abort flag, parent-cancel-requested flag and
parent task are untouched); and a child failing with a base-typed error while
the parent still runs does escalate — abort is triggered, the flag is set and
the parent is cancelled. -/
theorem taskscope_base_error_classification (s : TaskScope) (p : ParentTask)
    (t : ChildTask) (e : Exc)
    (hp : s.parent_task = some p) (hpd : p.done = false)
    (ht : t.cancelled = false) (hexc : t.exc = some e) :
    (TaskScope.is_base_error e = true
        ↔ (e = Exc.systemExit ∨ e = Exc.keyboardInterrupt))
    ∧ ((s.on_task_done t).scope.base_error ≠ s.base_error →
        TaskScope.is_base_error e = true
        ∧ s.base_error = none
        ∧ (s.on_task_done t).scope.base_error = some e)
    ∧ (TaskScope.is_base_error e = false →
        (s.on_task_done t).scope.aborting = s.aborting
        ∧ (s.on_task_done t).scope.parent_cancel_requested
            = s.parent_cancel_requested
        ∧ (s.on_task_done t).scope.parent_task = s.parent_task)
    ∧ (TaskScope.is_base_error e = true →
        (s.on_task_done t).scope.aborting = true
        ∧ (s.on_task_done t).scope.parent_cancel_requested = true
        ∧ (s.on_task_done t).scope.parent_task = some p.cancel) := by
  have key := on_task_done_errored_eq s p t e hp hpd ht hexc
  refine ⟨?_, ?_, fun he => ?_, fun he => ?_⟩
  · cases e <;> simp [TaskScope.is_base_error]
  · intro hne
    by_cases he : TaskScope.is_base_error e
    · refine ⟨he, ?_, ?_⟩
      · by_cases hsb : s.base_error = none
        · exact hsb
        · exfalso
          apply hne
          rw [key]
          simp [he, hsb, TaskScope.escalate, TaskScope.abort,
            TaskScope.record_task_error, TaskScope.discard_task]
      · by_cases hsb : s.base_error = none
        · rw [key]
          simp [he, TaskScope.escalate, TaskScope.abort,
            TaskScope.record_task_error, TaskScope.discard_task, hsb]
        · exfalso
          apply hne
          rw [key]
          simp [he, hsb, TaskScope.escalate, TaskScope.abort,
            TaskScope.record_task_error, TaskScope.discard_task]
    · exfalso
      apply hne
      rw [key]
      have he' : TaskScope.is_base_error e = false := by
        simpa using he
      simp [he', record_task_error_not_base, TaskScope.discard_task]
  · rw [key]
    simp only [he, Bool.false_eq_true, if_false]
    exact ⟨(record_task_error_aborting _ _).trans rfl,
           (record_task_error_pcr _ _).trans rfl,
           (record_task_error_parent_task _ _).trans rfl⟩
  · rw [key]
    simp [he, TaskScope.escalate, TaskScope.abort]

/-- Example terminal child: child 1 finished with `SystemExit`. -/
def exBaseFail : ChildTask :=
  { tid := 1, done := true, exc := some Exc.systemExit }

/-- C10 witness: a child dying with `SystemExit` in a two-child scope fills the
base-error slot and escalates — abort, the self-request flag, and a
cancellation on the parent. -/
theorem taskscope_base_error_classification_w :
    (TaskScope.is_base_error Exc.systemExit = true
        ↔ (Exc.systemExit = Exc.systemExit
            ∨ Exc.systemExit = Exc.keyboardInterrupt))
    ∧ (exScope.on_task_done exBaseFail).scope.base_error ≠ exScope.base_error
    ∧ (TaskScope.is_base_error Exc.systemExit = true
        ∧ exScope.base_error = none
        ∧ (exScope.on_task_done exBaseFail).scope.base_error
            = some Exc.systemExit)
    ∧ ((exScope.on_task_done exBaseFail).scope.aborting = true
        ∧ (exScope.on_task_done exBaseFail).scope.parent_cancel_requested = true
        ∧ (exScope.on_task_done exBaseFail).scope.parent_task
            = some (ParentTask.cancel {})) := by
  have h := taskscope_base_error_classification exScope {} exBaseFail
    Exc.systemExit rfl rfl rfl rfl
  exact ⟨h.1, by decide, h.2.1 (by decide), h.2.2.2 rfl⟩

/-- C1 counterexample: in an entered scope with two live children, child 1
finishing with an ordinary error does not trigger abort — the sibling stays
live and un-cancelled — and a subsequent exit (block normal, sibling
completing cleanly) surfaces no error at all, contradicting the claim that
siblings are cancelled and the error is surfaced at exit. -/
theorem taskscope_child_error_no_abort_cex :
    (exScope.on_task_done exOrdinaryFail).scope.aborting = false
    ∧ (exScope.on_task_done exOrdinaryFail).scope.tasks = [{ tid := 2 }]
    ∧ (exScope.aexit none
        [DrainEvent.taskCompletes 1 false (some (Exc.ordinary 0)),
         DrainEvent.taskCompletes 2 false none]).map Prod.snd
        = some ExitResult.passThrough := by decide

/-- C1 (amended): a child completing with an ordinary (non-cancellation,
non-base) error marks the any-task-errored flag and is reported through the
Error Delegate hook, but does not trigger abort — siblings receive no
cancellation, the child is merely removed from the live set — the base-error
slot stays empty, no parent escalation happens, and scope exit does not
surface the error (exit returns normally when no base error and no
cancellation is pending). -/
theorem taskscope_ordinary_error_delegated (s : TaskScope) (p : ParentTask)
    (t : ChildTask) (e : Exc)
    (hp : s.parent_task = some p) (hpd : p.done = false)
    (ht : t.cancelled = false) (hexc : t.exc = some e)
    (he : TaskScope.is_base_error e = false)
    (hb : s.base_error = none) :
    (s.on_task_done t).scope.has_errors = true
    ∧ (s.on_task_done t).delegated = true
    ∧ (s.on_task_done t).scope.aborting = s.aborting
    ∧ (s.on_task_done t).scope.tasks
        = s.tasks.filter (fun u => u.tid ≠ t.tid)
    ∧ (s.on_task_done t).scope.base_error = none
    ∧ (s.on_task_done t).scope.parent_cancel_requested
        = s.parent_cancel_requested
    ∧ (s.on_task_done t).scope.parent_task = s.parent_task
    ∧ ((s.on_task_done t).scope.aexitPost none none).2
        = ExitResult.passThrough := by
  have key := on_task_done_errored_eq s p t e hp hpd ht hexc
  rw [key]
  simp only [he, Bool.false_eq_true, if_false]
  have hbase : ((s.discard_task t).record_task_error e).base_error = none := by
    rw [record_task_error_not_base _ _ he]
    exact hb
  refine ⟨?_, ?_, ?_, ?_, ?_, ?_, ?_, ?_⟩
  · unfold TaskScope.record_task_error
    simp [apply_ite]
  · trivial
  · exact (record_task_error_aborting _ _).trans rfl
  · exact (record_task_error_tasks _ _).trans rfl
  · exact hbase
  · exact (record_task_error_pcr _ _).trans rfl
  · exact (record_task_error_parent_task _ _).trans rfl
  · simp [TaskScope.aexitPost, hbase]

/-- C1 (amended) witness: child 1 of the two-child example scope dies with an
ordinary error — the flag is set, the delegate is invoked, the sibling stays
live and un-cancelled, nothing escalates, and exit passes through. -/
theorem taskscope_ordinary_error_delegated_w :
    exScope.parent_task = some {}
    ∧ exOrdinaryFail.exc = some (Exc.ordinary 0)
    ∧ TaskScope.is_base_error (Exc.ordinary 0) = false
    ∧ (exScope.on_task_done exOrdinaryFail).scope.has_errors = true
    ∧ (exScope.on_task_done exOrdinaryFail).delegated = true
    ∧ (exScope.on_task_done exOrdinaryFail).scope.aborting = exScope.aborting
    ∧ (exScope.on_task_done exOrdinaryFail).scope.base_error = none
    ∧ (exScope.on_task_done exOrdinaryFail).scope.parent_task
        = exScope.parent_task
    ∧ ((exScope.on_task_done exOrdinaryFail).scope.aexitPost none none).2
        = ExitResult.passThrough := by
  have h := taskscope_ordinary_error_delegated exScope {} exOrdinaryFail
    (Exc.ordinary 0) rfl rfl rfl rfl rfl rfl
  exact ⟨rfl, rfl, rfl, h.1, h.2.1, h.2.2.1, h.2.2.2.2.1, h.2.2.2.2.2.2.1,
         h.2.2.2.2.2.2.2⟩
